import Mathlib

/-!
Shallow embedding of two VyOS configuration scripts:
  src/conf_mode/protocols_rip.py        (RIP routing protocol configuration)
  src/conf_mode/system-login-radius.py  (RADIUS authentication configuration)
Each script is a four-stage pipeline: get_config, verify, generate, apply.
Pure Python functions become Lean functions, side effects become explicit
event traces, and raising ConfigError becomes the error branch of
Except String.  Helper code of the repository that is not under src/
(the vyos.config store, vyos.util.dict_search, vyos.configdict.dict_merge,
vyos.configverify.verify_route_maps, the template files) is modelled from
the specification; every such definition says so in its doc comment.
-/

set_option linter.unusedVariables false

/-! Association lists, modelling Python dictionaries in insertion order. -/

/-- Association list lookup, modelling Python dictionary indexing; the first
matching key wins (real Python dictionaries have unique keys). -/
def alookup {α : Type} : List (String × α) → String → Option α
  | [], _ => none
  | (ka, v) :: rest, k => if ka = k then some v else alookup rest k

/-- Association list update, modelling Python dictionary assignment: an
existing key keeps its position and receives the new value, a fresh key is
appended at the end, following Python insertion order. -/
def aset {α : Type} : List (String × α) → String → α → List (String × α)
  | [], k, v => [(k, v)]
  | (ka, va) :: rest, k, v =>
    if ka = k then (ka, v) :: rest else (ka, va) :: aset rest k v

/-- The key list of an association list, modelling Python dict key iteration
order. -/
def akeys {α : Type} (l : List (String × α)) : List String := l.map (fun p => p.1)

/-! The nested dictionary values handled by protocols_rip.py. -/

/-- Python values stored in the nested configuration dictionaries that
protocols_rip.py passes between its stages: strings and nested
dictionaries. -/
inductive Value where
  | str : String → Value
  | dict : List (String × Value) → Value

/-- The nested dictionary type produced by get_config and consumed by the
later RIP stages. -/
abbrev Dict := List (String × Value)

/-- Python truthiness of a value: the empty string and the empty dictionary
are falsy, everything else is truthy. -/
def truthy : Value → Bool
  | Value.str s => s != ""
  | Value.dict d => !d.isEmpty

/-- Python truthiness of an optional value, where none models Python None. -/
def truthyO : Option Value → Bool
  | none => false
  | some v => truthy v

/-- Per-character hyphen to underscore substitution. -/
def dashToUnderscoreChars : List Char → List Char
  | [] => []
  | c :: rest => (if c = '-' then '_' else c) :: dashToUnderscoreChars rest

/-- Python str.replace of every hyphen by an underscore, the only replace the
scripts perform; with a single-character pattern this is per-character
substitution. -/
def dashToUnderscore (s : String) : String := String.mk (dashToUnderscoreChars s.toList)

/-- Prefix test on character lists, used to model Python substring
membership. -/
def charsPrefixOf : List Char → List Char → Bool
  | [], _ => true
  | _ :: _, [] => false
  | a :: as, b :: bs => a == b && charsPrefixOf as bs

/-- Substring test on character lists: the needle occurs somewhere in the
haystack. -/
def charsSubstr (n : List Char) : List Char → Bool
  | [] => charsPrefixOf n []
  | c :: rest => charsPrefixOf n (c :: rest) || charsSubstr n rest

/-- Python membership test as the verify checks use it: a string against a
dictionary tests key membership, a string against a string tests substring
containment, and a dictionary left operand is modelled as false (real Python
would raise TypeError there, a case no configuration produces). -/
def pyIn (a : Value) (c : Value) : Bool :=
  match a, c with
  | Value.str s, Value.dict d => d.any (fun p => p.1 == s)
  | Value.str s, Value.str cs => charsSubstr s.toList cs.toList
  | Value.dict _, _ => false

/-- Python `x or []`: the left operand when truthy, otherwise the empty
container; None and falsy containers both fall through to the empty list,
modelled as the empty dictionary. -/
def pyOr : Option Value → Value
  | none => Value.dict []
  | some v => if truthy v then v else Value.dict []

/-- Membership of an optional needle, modelling `x in (y or [])` guarded by
the truthiness test that the verify checks perform first. -/
def pyInO (a : Option Value) (c : Option Value) : Bool :=
  match a with
  | some v => pyIn v (pyOr c)
  | none => false

/-- The text interpolated for a value inside an f-string error message: the
string itself for string values; dictionary values never reach a message in
any real configuration and are rendered as the empty string here. -/
def valRepr : Option Value → String
  | some (Value.str s) => s
  | _ => ""

/-- Key membership in an optional dictionary value; this is the notion of
being present in a companion policy mapping that the claims speak about. -/
def isKeyOf (n : String) (o : Option Value) : Bool :=
  match o with
  | some (Value.dict d) => d.any (fun p => p.1 == n)
  | _ => false

/-- Python set(x) viewed as a list of strings: the keys for a dictionary and
the single characters for a string, matching set() on each value kind. -/
def keysOfVal : Value → List String
  | Value.dict d => akeys d
  | Value.str s => s.toList.map (fun c => String.mk [c])

/-- Modelled from the spec: vyos.util.dict_search (not under src/), the
duck-typed nested dictionary traversal by a dotted path; it returns none as
soon as a path component is missing or an intermediate value is not a
dictionary, otherwise the value reached. -/
def dsearch : List String → Value → Option Value
  | [], v => some v
  | k :: ks, Value.dict d =>
    match alookup d k with
    | some v => dsearch ks v
    | none => none
  | _ :: _, Value.str _ => none

/-- dict_search entered at a top-level dictionary, as every call in
protocols_rip.py does. -/
def dict_search (path : List String) (d : Dict) : Option Value :=
  dsearch path (Value.dict d)

/-! The configuration store, modelled from the spec. -/

/-- Modelled from the spec: the hierarchical configuration store consumed
through vyos.config.Config (not under src/) — a tree of named children with
an optional scalar value at each node, supporting the path-existence,
scalar-value-at-path and list-children-at-path queries of section 6 of the
specification. -/
inductive CTree where
  | mk : List (String × CTree) → Option String → CTree

/-- Walk a path of child names down a configuration tree. -/
def cfind : CTree → List String → Option CTree
  | t, [] => some t
  | CTree.mk cs _, k :: ks =>
    match alookup cs k with
    | some c => cfind c ks
    | none => none

/-- Modelled from the spec: Config.exists — the path-existence query. -/
def cexists (path : List String) (t : CTree) : Bool := (cfind t path).isSome

/-- Modelled from the spec: Config.return_value — the scalar-value-at-path
query, returning the empty string when the node or its value is absent. -/
def creturnValue (path : List String) (t : CTree) : String :=
  match cfind t path with
  | some (CTree.mk _ (some v)) => v
  | _ => ""

/-- Modelled from the spec: Config.list_nodes — the list-children-at-path
query, in configuration order. -/
def clistNodes (path : List String) (t : CTree) : List String :=
  match cfind t path with
  | some (CTree.mk cs _) => cs.map (fun p => p.1)
  | none => []

/-- Modelled from the spec: the dictionary form of a configuration subtree as
Config.get_config_dict produces it — leaf nodes with a value become strings,
inner nodes become dictionaries, and every key is mangled hyphen to
underscore, matching the key_mangling argument used by protocols_rip.py. -/
def ctreeVal : CTree → Value
  | CTree.mk [] (some s) => Value.str s
  | CTree.mk cs _ => Value.dict (cs.attach.map (fun c => (dashToUnderscore c.1.1, ctreeVal c.1.2)))
decreasing_by
  have h := List.sizeOf_lt_of_mem c.2
  obtain ⟨⟨k, t⟩, hm⟩ := c
  simp at h ⊢
  omega

/-- Modelled from the spec: Config.get_config_dict (vyos.config is not under
src/) — the mangled dictionary form of the subtree at the given path, or the
empty mapping when the subtree does not exist; with get_first_key the
children are returned directly, otherwise they sit under the final path
component. -/
def getConfigDict (t : CTree) (path : List String) (get_first_key : Bool) : Dict :=
  match cfind t path with
  | none => []
  | some sub =>
    if get_first_key then
      match ctreeVal sub with
      | Value.dict d => d
      | Value.str _ => []
    else
      [(dashToUnderscore (path.getLastD ""), ctreeVal sub)]

/-- Modelled from the spec: vyos.configdict.dict_merge (not under src/) — the
mapping merge with defaults-lose-to-explicit-values semantics: destination
values win, keys only present in the source are appended.  It is modelled one
level deep because no claim depends on nested merge behaviour. -/
def dict_merge (src : Dict) (dst : Dict) : Dict :=
  dst ++ src.filter (fun p => (alookup dst p.1).isNone)

/-- Modelled from the spec: the schema default values for the protocols rip
subtree (the XML interface definitions are not under src/); their contents
are immaterial to every claim, and the get_config path that the claims exercise
returns before merging them, so they are modelled as empty. -/
def ripDefaultValues : Dict := []

/-- Modelled from the spec: vyos.configverify.verify_route_maps (not under
src/), the structural route-map reference check run last by verify.  The
specification gives it no concrete contract and no claim depends on its
outcome — every claimed error is raised by an earlier check — so it is
modelled as accepting. -/
def verify_route_maps (rip : Dict) : Except String Unit := Except.ok ()

/-! protocols_rip.py. -/

namespace Rip

/-- get_config of protocols_rip.py: read the protocols rip subtree with key
mangling, bail out early with the bare dictionary when the subtree does not
exist, otherwise merge the schema defaults and then the policy subtree needed
by verify. -/
def get_config (t : CTree) : Dict :=
  let base := ["protocols", "rip"]
  let rip := getConfigDict t base true
  if cexists base t then
    let rip2 := dict_merge ripDefaultValues rip
    let tmp := getConfigDict t ["policy"] false
    dict_merge tmp rip2
  else rip

/-- Lines 66 to 68 of protocols_rip.py: the inbound access-list existence
check, comparing the referenced name verbatim against the keys of
policy.access_list. -/
def aclInCheck (rip : Dict) : Except String Unit :=
  let acl_in := dict_search ["distribute_list", "access_list", "in"] rip
  if truthyO acl_in && !(pyInO acl_in (dict_search ["policy", "access_list"] rip)) then
    Except.error ("Inbound ACL \"" ++ valRepr acl_in ++ "\" does not exist!")
  else Except.ok ()

/-- Lines 70 to 72 of protocols_rip.py: the outbound access-list existence
check. -/
def aclOutCheck (rip : Dict) : Except String Unit :=
  let acl_out := dict_search ["distribute_list", "access_list", "out"] rip
  if truthyO acl_out && !(pyInO acl_out (dict_search ["policy", "access_list"] rip)) then
    Except.error ("Outbound ACL \"" ++ valRepr acl_out ++ "\" does not exist!")
  else Except.ok ()

/-- The hyphen-mangled form of a referenced name, modelling
prefix_list_in.replace applied before the membership test. -/
def mangleRef : Option Value → Option Value
  | some (Value.str s) => some (Value.str (dashToUnderscore s))
  | v => v

/-- Lines 74 to 76 of protocols_rip.py: the inbound prefix-list existence
check; the referenced name has every hyphen replaced by an underscore before
it is compared against the keys of policy.prefix_list, while the error
message keeps the original name. -/
def prefixInCheck (rip : Dict) : Except String Unit :=
  let prefix_list_in := dict_search ["distribute_list", "prefix_list", "in"] rip
  if truthyO prefix_list_in &&
      !(pyInO (mangleRef prefix_list_in) (dict_search ["policy", "prefix_list"] rip)) then
    Except.error ("Inbound prefix-list \"" ++ valRepr prefix_list_in ++ "\" does not exist!")
  else Except.ok ()

/-- Lines 78 to 80 of protocols_rip.py: the outbound prefix-list existence
check, mangled exactly like the inbound one. -/
def prefixOutCheck (rip : Dict) : Except String Unit :=
  let prefix_list_out := dict_search ["distribute_list", "prefix_list", "out"] rip
  if truthyO prefix_list_out &&
      !(pyInO (mangleRef prefix_list_out) (dict_search ["policy", "prefix_list"] rip)) then
    Except.error ("Outbound prefix-list \"" ++ valRepr prefix_list_out ++ "\" does not exist!")
  else Except.ok ()

/-- Lines 84 to 90 of protocols_rip.py, for one interface entry: raise when
the authentication options contain both md5 and plaintext_password, then
raise when the split_horizon options contain both disable and
poison_reverse.  A non-dictionary entry is skipped (no real configuration
produces one). -/
def checkIface (name : String) (opts : Value) : Except String Unit :=
  match opts with
  | Value.dict o =>
    let authBad :=
      match alookup o "authentication" with
      | some a => (keysOfVal a).contains "md5" && (keysOfVal a).contains "plaintext_password"
      | none => false
    if authBad then
      Except.error "Can not use both md5 and plaintext-password at the same time!"
    else
      let shBad :=
        match alookup o "split_horizon" with
        | some sh => (keysOfVal sh).contains "disable" && (keysOfVal sh).contains "poison_reverse"
        | none => false
      if shBad then
        Except.error ("You can not have \"split-horizon poison-reverse\" enabled " ++
          "with \"split-horizon disable\" for \"" ++ name ++ "\"!")
      else Except.ok ()
  | Value.str _ => Except.ok ()

/-- The loop of line 83 of protocols_rip.py over the interface entries in
dictionary order, stopping at the first raised error. -/
def ifaceLoop : List (String × Value) → Except String Unit
  | [] => Except.ok ()
  | (n, o) :: rest =>
    match checkIface n o with
    | Except.error e => Except.error e
    | Except.ok _ => ifaceLoop rest

/-- Lines 82 to 90 of protocols_rip.py: run the per-interface checks when the
interface key is present. -/
def interfaceCheck (rip : Dict) : Except String Unit :=
  match alookup rip "interface" with
  | some (Value.dict ifs) => ifaceLoop ifs
  | some (Value.str _) => Except.ok ()
  | none => Except.ok ()

/-- verify of protocols_rip.py: return immediately on a falsy dictionary,
then run the access-list, prefix-list, interface and route-map checks in
source order, raising the first failure. -/
def verify (rip : Dict) : Except String Unit :=
  if rip.isEmpty then Except.ok ()
  else
    match aclInCheck rip with
    | Except.error e => Except.error e
    | Except.ok _ =>
      match aclOutCheck rip with
      | Except.error e => Except.error e
      | Except.ok _ =>
        match prefixInCheck rip with
        | Except.error e => Except.error e
        | Except.ok _ =>
          match prefixOutCheck rip with
          | Except.error e => Except.error e
          | Except.ok _ =>
            match interfaceCheck rip with
            | Except.error e => Except.error e
            | Except.ok _ => verify_route_maps rip

/-- Modelled from the spec: vyos.template.render_to_string with the template
frr/rip.frr.tmpl (the template file is not under src/).  The specification
requires only a deterministic render and no claim depends on the produced
text, so the model returns a fixed FRR stanza. -/
def render_to_string (tmpl : String) (rip : Dict) : String := "router rip"

/-- generate of protocols_rip.py: on a falsy dictionary store the empty
string under new_frr_config, otherwise store the rendered template; nothing
else in the dictionary is touched. -/
def generate (rip : Dict) : Dict :=
  if rip.isEmpty then aset rip "new_frr_config" (Value.str "")
  else aset rip "new_frr_config" (Value.str (render_to_string "frr/rip.frr.tmpl" rip))

/-- One operation of the external FRR reload interface of vyos.frr, recorded
as a trace event (modelled from the spec: load a daemon snapshot, replace a
section by regex, insert before an anchor regex, commit). -/
inductive FrrOp where
  | load : String → FrrOp
  | modifySection : String → String → FrrOp
  | addBefore : String → String → FrrOp
  | commit : String → FrrOp

/-- apply of protocols_rip.py as the trace of FRR operations it performs:
load the ripd configuration, clear the key chain, interface and router rip
sections, insert the rendered text before the stable anchor, commit once,
and, when the rendered text is the empty string, unconditionally commit five
more times (the frr-reload workaround of lines 114 to 117).  The result is
none only if new_frr_config is missing, where Python would raise KeyError;
generate always stores the key first. -/
def apply (rip : Dict) : Option (List FrrOp) :=
  match alookup rip "new_frr_config" with
  | some (Value.str s) =>
    some ([FrrOp.load "ripd",
           FrrOp.modifySection "key chain \\S+" "",
           FrrOp.modifySection "interface \\S+" "",
           FrrOp.modifySection "router rip" "",
           FrrOp.addBefore "(ip prefix-list .*|route-map .*|line vty)" s,
           FrrOp.commit "ripd"] ++
          (if s = "" then
            [FrrOp.commit "ripd", FrrOp.commit "ripd", FrrOp.commit "ripd",
             FrrOp.commit "ripd", FrrOp.commit "ripd"]
           else []))
  | _ => none

/-- Whether a trace event is a commit_configuration call. -/
def isCommitOp : FrrOp → Bool
  | FrrOp.commit _ => true
  | _ => false

/-- The number of commit_configuration calls in a trace. -/
def commitCount (ops : List FrrOp) : Nat := (ops.filter isCommitOp).length

/-- The body of the __main__ try block of protocols_rip.py after get_config:
verify, then generate, then apply; the Except error branch is the ConfigError
propagating, which skips every later stage. -/
def pipeline (rip : Dict) : Except String (Dict × List FrrOp) :=
  match verify rip with
  | Except.error e => Except.error e
  | Except.ok _ =>
    let rip2 := generate rip
    match apply rip2 with
    | some ops => Except.ok (rip2, ops)
    | none => Except.ok (rip2, [])

/-- The __main__ block of protocols_rip.py: on ConfigError print the message
and exit 1, otherwise exit 0 printing nothing.  The result is the pair of the
text printed to standard output and the process exit status. -/
def main (t : CTree) : String × Nat :=
  match pipeline (get_config t) with
  | Except.error e => (e, 1)
  | Except.ok _ => ("", 0)

end Rip

/-! system-login-radius.py. -/

/-- Python values stored in one RADIUS server entry dictionary: booleans and
strings. -/
inductive RVal where
  | b : Bool → RVal
  | s : String → RVal
deriving DecidableEq

/-- One RADIUS server entry as the dictionary that get_config builds. -/
abbrev REntry := List (String × RVal)

/-- Python truthiness of an optional RVal: a missing key is falsy (this is
also how the Jinja template treats an undefined attribute). -/
def truthyR : Option RVal → Bool
  | some (RVal.b b) => b
  | some (RVal.s s) => s != ""
  | none => false

/-- The text the Jinja template interpolates for an entry field: the string
itself, True or False for booleans, and the empty string for an undefined
attribute. -/
def rstr : Option RVal → String
  | some (RVal.s s) => s
  | some (RVal.b b) => if b then "True" else "False"
  | none => ""

/-- The mapping that the RADIUS stages pass around: the server entry list and
the source_address string of default_config_data. -/
structure RadiusConfig where
  server : List REntry
  source_address : String
deriving DecidableEq

namespace Radius

/-- The fixed output path radius_config_file of system-login-radius.py. -/
def radius_config_file : String := "/etc/pam_radius_auth.conf"

/-- The configuration path of the leaf nodes of one RADIUS server, as
addressed after conf.set_level(base_level + [server, name]). -/
def serverPath (name leaf : String) : List String :=
  ["system", "login", "radius", "server", name, leaf]

/-- Lines 77 to 104 of system-login-radius.py: build one server entry — the
literal five-key dictionary with its defaults, then conditionally overwrite
disabled, key, port and timeout from the configuration store. -/
def serverCfg (t : CTree) (name : String) : REntry :=
  let cfg : REntry :=
    [("address", RVal.s name), ("disabled", RVal.b false), ("key", RVal.s ""),
     ("port", RVal.s "1812"), ("timeout", RVal.s "2")]
  let cfg := if cexists (serverPath name "disable") t then aset cfg "disabled" (RVal.b true) else cfg
  let cfg := if cexists (serverPath name "key") t then
    aset cfg "key" (RVal.s (creturnValue (serverPath name "key") t)) else cfg
  let cfg := if cexists (serverPath name "port") t then
    aset cfg "port" (RVal.s (creturnValue (serverPath name "port") t)) else cfg
  if cexists (serverPath name "timeout") t then
    aset cfg "timeout" (RVal.s (creturnValue (serverPath name "timeout") t)) else cfg

/-- get_config of system-login-radius.py: the default mapping (empty server
list, empty source_address) when the system login radius subtree is absent,
otherwise the optional source-address value and one entry per configured
server node, in configuration order. -/
def get_config (t : CTree) : RadiusConfig :=
  let base := ["system", "login", "radius"]
  if cexists base t then
    { source_address :=
        if cexists (base ++ ["source-address"]) t then
          creturnValue (base ++ ["source-address"]) t
        else ""
      server := (clistNodes (base ++ ["server"]) t).map (serverCfg t) }
  else { server := [], source_address := "" }

/-- verify of system-login-radius.py: with a non-empty server list, raise
exactly when no entry is enabled (the fail flag of lines 110 to 115 stays
true precisely when every disabled field is truthy). -/
def verify (radius : RadiusConfig) : Except String Unit :=
  if radius.server.length > 0 then
    if radius.server.all (fun s => truthyR (alookup s "disabled")) then
      Except.error "At least one RADIUS server must be active."
    else Except.ok ()
  else Except.ok ()

/-- One rendered server line of the radius_config_tmpl Jinja template:
address, port, key and timeout separated as in the template, followed by the
source address when it is truthy, and the newline kept by the surrounding
whitespace-control markers. -/
def serverLine (e : REntry) (src : String) : String :=
  rstr (alookup e "address") ++ ":" ++ rstr (alookup e "port") ++ " " ++
  rstr (alookup e "key") ++ " " ++ rstr (alookup e "timeout") ++ " " ++
  (if src != "" then src else "") ++ "\n"

/-- The for loop of the radius_config_tmpl template over the server list: a
disabled entry contributes nothing, an enabled entry contributes its line. -/
def serversBlock (l : List REntry) (src : String) : String :=
  match l with
  | [] => ""
  | e :: rest =>
    (if truthyR (alookup e "disabled") then "" else serverLine e src) ++ serversBlock rest src

/-- The fixed text of radius_config_tmpl before the server-dependent part,
after Jinja whitespace control removes the newline swallowed by the
opening if marker. -/
def radiusHeader : String := "\n# Automatically generated by VyOS\n# RADIUS configuration file"

/-- The comment line of radius_config_tmpl heading the server table, emitted
only when the server list is non-empty. -/
def serverTableHeader : String :=
  "\n# server[:port]         shared_secret                           timeout (s)     source_ip\n"

/-- The fixed text of radius_config_tmpl after the server lines, emitted only
when the server list is non-empty. -/
def radiusTrailer : String := "\n\npriv-lvl 15\nmapped_priv_user radius_priv_user\n"

/-- The render of the radius_config_tmpl Jinja template of lines 29 to 44 of
system-login-radius.py, with whitespace control applied exactly as Jinja
does: the header always, the server table and trailer only for a non-empty
server list, and the two newlines closing the template always. -/
def renderTemplate (radius : RadiusConfig) : String :=
  radiusHeader ++
  (if radius.server.isEmpty then ""
   else serverTableHeader ++ serversBlock radius.server radius.source_address ++ radiusTrailer) ++
  "\n\n"

/-- One filesystem side effect of generate, recorded as a trace event. -/
inductive FsEvent where
  | write : String → String → FsEvent
  | chown : String → String → String → FsEvent
  | chmod : String → Nat → FsEvent
  | unlink : String → FsEvent
deriving DecidableEq

/-- generate of system-login-radius.py as its filesystem trace: with a
non-empty server list, write the rendered template to the fixed path, chown
it to root:root and chmod it to owner read and write only (S_IRUSR or S_IWUSR
is octal 600); with an empty server list, unlink the file. -/
def generate (radius : RadiusConfig) : List FsEvent :=
  if radius.server.length > 0 then
    [FsEvent.write radius_config_file (renderTemplate radius),
     FsEvent.chown radius_config_file "root" "root",
     FsEvent.chmod radius_config_file 0o600]
  else [FsEvent.unlink radius_config_file]

/-- One PAM or NSS side effect of apply, recorded as a trace event (the
os.system command texts belong to external collaborators). -/
inductive PamEvent where
  | enableRadius : PamEvent
  | nssMapAdd : PamEvent
  | removeRadius : PamEvent
  | nssMapRemove : PamEvent
deriving DecidableEq

/-- apply of system-login-radius.py as its system-call trace: enable the PAM
radius module and add the NSS mapping entries when servers are configured,
remove both otherwise.  os.system never raises, so the ConfigError wrappers
of the try blocks are unreachable and apply always succeeds. -/
def apply (radius : RadiusConfig) : List PamEvent :=
  if radius.server.length > 0 then [PamEvent.enableRadius, PamEvent.nssMapAdd]
  else [PamEvent.removeRadius, PamEvent.nssMapRemove]

/-- The body of the __main__ try block of system-login-radius.py after
get_config: verify, then generate, then apply; the error branch is the
ConfigError propagating past the later stages. -/
def pipeline (radius : RadiusConfig) : Except String (List FsEvent × List PamEvent) :=
  match verify radius with
  | Except.error e => Except.error e
  | Except.ok _ => Except.ok (generate radius, apply radius)

/-- The __main__ block of system-login-radius.py: on ConfigError print the
message and exit 1, otherwise exit 0 printing nothing.  The result is the
pair of the text printed to standard output and the process exit status. -/
def main (t : CTree) : String × Nat :=
  match pipeline (get_config t) with
  | Except.error e => (e, 1)
  | Except.ok _ => ("", 0)

end Radius

/-! Concrete configurations used by witnesses and counterexamples. -/

/-- A RIP mapping whose inbound prefix-list reference "foo-bar" is not
literally a key of policy.prefix_list, while its hyphen-mangled form
"foo_bar" is — exactly the shape get_config produces, since key mangling
rewrites keys but not values. -/
def ripMangledPolicy : Dict :=
  [("distribute_list", Value.dict [("prefix_list", Value.dict [("in", Value.str "foo-bar")])]),
   ("policy", Value.dict [("prefix_list", Value.dict [("foo_bar", Value.dict [])])])]

/-- A RIP mapping whose inbound access-list reference "10" has no companion
policy entry at all. -/
def ripBadAclIn : Dict :=
  [("distribute_list", Value.dict [("access_list", Value.dict [("in", Value.str "10")])])]

/-- A RIP mapping with one interface carrying both md5 and
plaintext_password authentication options. -/
def ripConflictIface : Dict :=
  [("interface", Value.dict [("eth0", Value.dict
    [("authentication", Value.dict
      [("md5", Value.dict []), ("plaintext_password", Value.str "x")])])])]

/-- A RIP mapping whose inbound prefix-list reference "a-b" mangles to the
existing policy key "a_b". -/
def ripPfxMangledOk : Dict :=
  [("distribute_list", Value.dict [("prefix_list", Value.dict [("in", Value.str "a-b")])]),
   ("policy", Value.dict [("prefix_list", Value.dict [("a_b", Value.dict [])])])]

/-- A disabled RADIUS server entry. -/
def radiusDisabledEntry : REntry :=
  [("address", RVal.s "192.0.2.1"), ("disabled", RVal.b true), ("key", RVal.s "k1"),
   ("port", RVal.s "1812"), ("timeout", RVal.s "2")]

/-- An enabled RADIUS server entry. -/
def radiusEnabledEntry : REntry :=
  [("address", RVal.s "192.0.2.2"), ("disabled", RVal.b false), ("key", RVal.s "k2"),
   ("port", RVal.s "1812"), ("timeout", RVal.s "2")]

/-- A configuration tree holding one RADIUS server named 10.0.0.1 with only
its key configured. -/
def radiusTree : CTree :=
  CTree.mk [("system", CTree.mk [("login", CTree.mk [("radius", CTree.mk
    [("server", CTree.mk [("10.0.0.1", CTree.mk
      [("key", CTree.mk [] (some "secret"))] none)] none)] none)] none)] none)] none

/-! Helper lemmas on the dictionary model. -/

theorem alookup_aset_self {α : Type} (l : List (String × α)) (k : String) (v : α) :
    alookup (aset l k v) k = some v := by
  induction l with
  | nil => simp [aset, alookup]
  | cons hd tl ih =>
    obtain ⟨ka, va⟩ := hd
    by_cases h : ka = k <;> simp [aset, alookup, h, ih]

theorem alookup_aset_ne {α : Type} (l : List (String × α)) (k k' : String) (v : α)
    (h : k' ≠ k) : alookup (aset l k v) k' = alookup l k' := by
  have hne : k ≠ k' := fun hh => h hh.symm
  induction l with
  | nil => simp [aset, alookup, hne]
  | cons hd tl ih =>
    obtain ⟨ka, va⟩ := hd
    by_cases hk : ka = k
    · subst hk
      simp [aset, alookup, hne]
    · by_cases hk' : ka = k' <;> simp [aset, alookup, hk, hk', ih, h]

theorem pyInO_str_eq_isKeyOf (a : String) (x : Option Value)
    (hx : ∀ v, x = some v → ∃ d, v = Value.dict d) :
    pyInO (some (Value.str a)) x = isKeyOf a x := by
  cases x with
  | none => rfl
  | some v =>
    obtain ⟨d, rfl⟩ := hx v rfl
    cases d with
    | nil => rfl
    | cons hd tl => simp [pyInO, pyOr, truthy, pyIn, isKeyOf]

theorem dict_search_cons_some {k : String} {ks : List String} {d : Dict} {v : Value}
    (h : dict_search (k :: ks) d = some v) : d.isEmpty = false := by
  cases d with
  | nil => simp [dict_search, dsearch, alookup] at h
  | cons hd tl => rfl

/-! Helper lemmas on the RIP verify checks. -/

theorem aclInCheck_error (rip : Dict) (a : String)
    (hin : dict_search ["distribute_list", "access_list", "in"] rip = some (Value.str a))
    (hne : a ≠ "")
    (hx : ∀ v, dict_search ["policy", "access_list"] rip = some v → ∃ d, v = Value.dict d)
    (hkey : isKeyOf a (dict_search ["policy", "access_list"] rip) = false) :
    Rip.aclInCheck rip = Except.error ("Inbound ACL \"" ++ a ++ "\" does not exist!") := by
  have hm := pyInO_str_eq_isKeyOf a _ hx
  simp [Rip.aclInCheck, hin, truthyO, truthy, hm, hkey, hne, valRepr]

theorem aclOutCheck_error (rip : Dict) (a : String)
    (hin : dict_search ["distribute_list", "access_list", "out"] rip = some (Value.str a))
    (hne : a ≠ "")
    (hx : ∀ v, dict_search ["policy", "access_list"] rip = some v → ∃ d, v = Value.dict d)
    (hkey : isKeyOf a (dict_search ["policy", "access_list"] rip) = false) :
    Rip.aclOutCheck rip = Except.error ("Outbound ACL \"" ++ a ++ "\" does not exist!") := by
  have hm := pyInO_str_eq_isKeyOf a _ hx
  simp [Rip.aclOutCheck, hin, truthyO, truthy, hm, hkey, hne, valRepr]

theorem prefixInCheck_error (rip : Dict) (p : String)
    (hin : dict_search ["distribute_list", "prefix_list", "in"] rip = some (Value.str p))
    (hne : p ≠ "")
    (hx : ∀ v, dict_search ["policy", "prefix_list"] rip = some v → ∃ d, v = Value.dict d)
    (hkey : isKeyOf (dashToUnderscore p) (dict_search ["policy", "prefix_list"] rip) = false) :
    Rip.prefixInCheck rip = Except.error ("Inbound prefix-list \"" ++ p ++ "\" does not exist!") := by
  have hm := pyInO_str_eq_isKeyOf (dashToUnderscore p) _ hx
  simp [Rip.prefixInCheck, Rip.mangleRef, hin, truthyO, truthy, hm, hkey, hne, valRepr]

theorem prefixOutCheck_error (rip : Dict) (p : String)
    (hin : dict_search ["distribute_list", "prefix_list", "out"] rip = some (Value.str p))
    (hne : p ≠ "")
    (hx : ∀ v, dict_search ["policy", "prefix_list"] rip = some v → ∃ d, v = Value.dict d)
    (hkey : isKeyOf (dashToUnderscore p) (dict_search ["policy", "prefix_list"] rip) = false) :
    Rip.prefixOutCheck rip = Except.error ("Outbound prefix-list \"" ++ p ++ "\" does not exist!") := by
  have hm := pyInO_str_eq_isKeyOf (dashToUnderscore p) _ hx
  simp [Rip.prefixOutCheck, Rip.mangleRef, hin, truthyO, truthy, hm, hkey, hne, valRepr]

theorem prefixInCheck_ok_iff (rip : Dict) (p : String)
    (hin : dict_search ["distribute_list", "prefix_list", "in"] rip = some (Value.str p))
    (hne : p ≠ "")
    (hx : ∀ v, dict_search ["policy", "prefix_list"] rip = some v → ∃ d, v = Value.dict d) :
    Rip.prefixInCheck rip = Except.ok () ↔
      isKeyOf (dashToUnderscore p) (dict_search ["policy", "prefix_list"] rip) = true := by
  have hm := pyInO_str_eq_isKeyOf (dashToUnderscore p) _ hx
  cases hk : isKeyOf (dashToUnderscore p) (dict_search ["policy", "prefix_list"] rip) with
  | false => simp [Rip.prefixInCheck, Rip.mangleRef, hin, truthyO, truthy, hne, hm, hk]
  | true => simp [Rip.prefixInCheck, Rip.mangleRef, hin, truthyO, truthy, hne, hm, hk]

theorem prefixOutCheck_ok_iff (rip : Dict) (p : String)
    (hin : dict_search ["distribute_list", "prefix_list", "out"] rip = some (Value.str p))
    (hne : p ≠ "")
    (hx : ∀ v, dict_search ["policy", "prefix_list"] rip = some v → ∃ d, v = Value.dict d) :
    Rip.prefixOutCheck rip = Except.ok () ↔
      isKeyOf (dashToUnderscore p) (dict_search ["policy", "prefix_list"] rip) = true := by
  have hm := pyInO_str_eq_isKeyOf (dashToUnderscore p) _ hx
  cases hk : isKeyOf (dashToUnderscore p) (dict_search ["policy", "prefix_list"] rip) with
  | false => simp [Rip.prefixOutCheck, Rip.mangleRef, hin, truthyO, truthy, hne, hm, hk]
  | true => simp [Rip.prefixOutCheck, Rip.mangleRef, hin, truthyO, truthy, hne, hm, hk]

theorem aclInCheck_ok_iff (rip : Dict) (a : String)
    (hin : dict_search ["distribute_list", "access_list", "in"] rip = some (Value.str a))
    (hne : a ≠ "")
    (hx : ∀ v, dict_search ["policy", "access_list"] rip = some v → ∃ d, v = Value.dict d) :
    Rip.aclInCheck rip = Except.ok () ↔
      isKeyOf a (dict_search ["policy", "access_list"] rip) = true := by
  have hm := pyInO_str_eq_isKeyOf a _ hx
  cases hk : isKeyOf a (dict_search ["policy", "access_list"] rip) with
  | false => simp [Rip.aclInCheck, hin, truthyO, truthy, hne, hm, hk]
  | true => simp [Rip.aclInCheck, hin, truthyO, truthy, hne, hm, hk]

theorem aclOutCheck_ok_iff (rip : Dict) (a : String)
    (hin : dict_search ["distribute_list", "access_list", "out"] rip = some (Value.str a))
    (hne : a ≠ "")
    (hx : ∀ v, dict_search ["policy", "access_list"] rip = some v → ∃ d, v = Value.dict d) :
    Rip.aclOutCheck rip = Except.ok () ↔
      isKeyOf a (dict_search ["policy", "access_list"] rip) = true := by
  have hm := pyInO_str_eq_isKeyOf a _ hx
  cases hk : isKeyOf a (dict_search ["policy", "access_list"] rip) with
  | false => simp [Rip.aclOutCheck, hin, truthyO, truthy, hne, hm, hk]
  | true => simp [Rip.aclOutCheck, hin, truthyO, truthy, hne, hm, hk]

theorem checkIface_error_of_conflict (n : String) (o : List (String × Value))
    (h : (∃ a, alookup o "authentication" = some a ∧
           "md5" ∈ keysOfVal a ∧ "plaintext_password" ∈ keysOfVal a) ∨
         (∃ sh, alookup o "split_horizon" = some sh ∧
           "disable" ∈ keysOfVal sh ∧ "poison_reverse" ∈ keysOfVal sh)) :
    ∃ e, Rip.checkIface n (Value.dict o) = Except.error e := by
  rcases h with ⟨a, ha, h1, h2⟩ | ⟨sh, hs, h1, h2⟩
  · exact ⟨"Can not use both md5 and plaintext-password at the same time!",
      by simp [Rip.checkIface, ha, h1, h2]⟩
  · cases haa : alookup o "authentication" with
    | none =>
      exact ⟨("You can not have \"split-horizon poison-reverse\" enabled " ++
        "with \"split-horizon disable\" for \"" ++ n ++ "\"!"),
        by simp [Rip.checkIface, haa, hs, h1, h2]⟩
    | some a2 =>
      by_cases hc2 : "md5" ∈ keysOfVal a2 ∧ "plaintext_password" ∈ keysOfVal a2
      · exact ⟨"Can not use both md5 and plaintext-password at the same time!",
          by simp [Rip.checkIface, haa, hc2.1, hc2.2]⟩
      · exact ⟨("You can not have \"split-horizon poison-reverse\" enabled " ++
          "with \"split-horizon disable\" for \"" ++ n ++ "\"!"),
          by simp [Rip.checkIface, haa, hc2, hs, h1, h2]⟩

theorem ifaceLoop_error_of_mem (l : List (String × Value)) (n : String) (o : List (String × Value))
    (hmem : (n, Value.dict o) ∈ l)
    (hbad : ∃ e, Rip.checkIface n (Value.dict o) = Except.error e) :
    ∃ e, Rip.ifaceLoop l = Except.error e := by
  induction l with
  | nil => cases hmem
  | cons hd tl ih =>
    obtain ⟨hn, ho⟩ := hd
    rcases List.mem_cons.mp hmem with heq | hmem2
    · obtain ⟨e, he⟩ := hbad
      cases heq
      exact ⟨e, by simp [Rip.ifaceLoop, he]⟩
    · cases hh : Rip.checkIface hn ho with
      | error e2 => exact ⟨e2, by simp [Rip.ifaceLoop, hh]⟩
      | ok u =>
        cases u
        obtain ⟨e, he⟩ := ih hmem2
        exact ⟨e, by simp [Rip.ifaceLoop, hh, he]⟩

theorem ripVerify_error_of_iface (rip : Dict) (hemp : rip.isEmpty = false)
    (hic : ∃ e, Rip.interfaceCheck rip = Except.error e) :
    ∃ e, Rip.verify rip = Except.error e := by
  obtain ⟨e, he⟩ := hic
  cases h1 : Rip.aclInCheck rip with
  | error e1 => exact ⟨e1, by simp [Rip.verify, hemp, h1]⟩
  | ok u =>
    cases u
    cases h2 : Rip.aclOutCheck rip with
    | error e2 => exact ⟨e2, by simp [Rip.verify, hemp, h1, h2]⟩
    | ok u =>
      cases u
      cases h3 : Rip.prefixInCheck rip with
      | error e3 => exact ⟨e3, by simp [Rip.verify, hemp, h1, h2, h3]⟩
      | ok u =>
        cases u
        cases h4 : Rip.prefixOutCheck rip with
        | error e4 => exact ⟨e4, by simp [Rip.verify, hemp, h1, h2, h3, h4]⟩
        | ok u =>
          cases u
          exact ⟨e, by simp [Rip.verify, hemp, h1, h2, h3, h4, he]⟩

/-! Claim theorems. -/

/-- C1 (counterexample): the claim predicts an error for every mapping whose
inbound prefix-list reference is not a key of policy.prefix_list, but on
ripMangledPolicy the reference "foo-bar" is not a key of policy.prefix_list
(only its mangled form "foo_bar" is), yet verify succeeds and the pipeline
reaches generate and apply. -/
theorem rip_c1_counterexample :
    dict_search ["distribute_list", "prefix_list", "in"] ripMangledPolicy =
      some (Value.str "foo-bar") ∧
    isKeyOf "foo-bar" (dict_search ["policy", "prefix_list"] ripMangledPolicy) = false ∧
    Rip.verify ripMangledPolicy = Except.ok () ∧
    ∃ r, Rip.pipeline ripMangledPolicy = Except.ok r :=
  ⟨rfl, rfl, rfl, ⟨_, rfl⟩⟩

/-- C1 (amended): for every RIP mapping whose policy access-list and
prefix-list registries are dictionaries when present, a referenced
access-list name that is not a key of policy.access_list, or a referenced
prefix-list name whose hyphen-to-underscore mangled form is not a key of
policy.prefix_list, makes verify raise the ConfigError naming that value,
and the pipeline stops with that error before generate; each later check
assumes the earlier ones passed, because verify raises the first failure. -/
theorem rip_missing_reference_raises (rip : Dict)
    (hacc : ∀ v, dict_search ["policy", "access_list"] rip = some v → ∃ d, v = Value.dict d)
    (hpfx : ∀ v, dict_search ["policy", "prefix_list"] rip = some v → ∃ d, v = Value.dict d) :
    (∀ a, dict_search ["distribute_list", "access_list", "in"] rip = some (Value.str a) →
      a ≠ "" → isKeyOf a (dict_search ["policy", "access_list"] rip) = false →
      Rip.verify rip = Except.error ("Inbound ACL \"" ++ a ++ "\" does not exist!") ∧
      Rip.pipeline rip = Except.error ("Inbound ACL \"" ++ a ++ "\" does not exist!")) ∧
    (∀ a, Rip.aclInCheck rip = Except.ok () →
      dict_search ["distribute_list", "access_list", "out"] rip = some (Value.str a) →
      a ≠ "" → isKeyOf a (dict_search ["policy", "access_list"] rip) = false →
      Rip.verify rip = Except.error ("Outbound ACL \"" ++ a ++ "\" does not exist!") ∧
      Rip.pipeline rip = Except.error ("Outbound ACL \"" ++ a ++ "\" does not exist!")) ∧
    (∀ p, Rip.aclInCheck rip = Except.ok () → Rip.aclOutCheck rip = Except.ok () →
      dict_search ["distribute_list", "prefix_list", "in"] rip = some (Value.str p) →
      p ≠ "" →
      isKeyOf (dashToUnderscore p) (dict_search ["policy", "prefix_list"] rip) = false →
      Rip.verify rip = Except.error ("Inbound prefix-list \"" ++ p ++ "\" does not exist!") ∧
      Rip.pipeline rip = Except.error ("Inbound prefix-list \"" ++ p ++ "\" does not exist!")) ∧
    (∀ p, Rip.aclInCheck rip = Except.ok () → Rip.aclOutCheck rip = Except.ok () →
      Rip.prefixInCheck rip = Except.ok () →
      dict_search ["distribute_list", "prefix_list", "out"] rip = some (Value.str p) →
      p ≠ "" →
      isKeyOf (dashToUnderscore p) (dict_search ["policy", "prefix_list"] rip) = false →
      Rip.verify rip = Except.error ("Outbound prefix-list \"" ++ p ++ "\" does not exist!") ∧
      Rip.pipeline rip = Except.error ("Outbound prefix-list \"" ++ p ++ "\" does not exist!")) := by
  refine ⟨?_, ?_, ?_, ?_⟩
  · intro a hin hne hkey
    have hemp := dict_search_cons_some hin
    have hchk := aclInCheck_error rip a hin hne hacc hkey
    have hv : Rip.verify rip = Except.error ("Inbound ACL \"" ++ a ++ "\" does not exist!") := by
      simp [Rip.verify, hemp, hchk]
    exact ⟨hv, by simp [Rip.pipeline, hv]⟩
  · intro a h1 hin hne hkey
    have hemp := dict_search_cons_some hin
    have hchk := aclOutCheck_error rip a hin hne hacc hkey
    have hv : Rip.verify rip = Except.error ("Outbound ACL \"" ++ a ++ "\" does not exist!") := by
      simp [Rip.verify, hemp, h1, hchk]
    exact ⟨hv, by simp [Rip.pipeline, hv]⟩
  · intro p h1 h2 hin hne hkey
    have hemp := dict_search_cons_some hin
    have hchk := prefixInCheck_error rip p hin hne hpfx hkey
    have hv : Rip.verify rip =
        Except.error ("Inbound prefix-list \"" ++ p ++ "\" does not exist!") := by
      simp [Rip.verify, hemp, h1, h2, hchk]
    exact ⟨hv, by simp [Rip.pipeline, hv]⟩
  · intro p h1 h2 h3 hin hne hkey
    have hemp := dict_search_cons_some hin
    have hchk := prefixOutCheck_error rip p hin hne hpfx hkey
    have hv : Rip.verify rip =
        Except.error ("Outbound prefix-list \"" ++ p ++ "\" does not exist!") := by
      simp [Rip.verify, hemp, h1, h2, h3, hchk]
    exact ⟨hv, by simp [Rip.pipeline, hv]⟩

/-- C1 (witness): on ripBadAclIn, whose inbound access-list reference "10"
has no companion policy entry, verify raises the named error and the
pipeline stops with it. -/
theorem rip_missing_reference_raises_witness :
    Rip.verify ripBadAclIn = Except.error "Inbound ACL \"10\" does not exist!" ∧
    Rip.pipeline ripBadAclIn = Except.error "Inbound ACL \"10\" does not exist!" := by
  have h := (rip_missing_reference_raises ripBadAclIn
    (fun v hv => Option.noConfusion hv) (fun v hv => Option.noConfusion hv)).1
    "10" rfl (by decide) rfl
  exact h

/-- C3: for every RIP mapping with an interface entry whose authentication
options contain both md5 and plaintext_password, or whose split_horizon
options contain both disable and poison_reverse, verify raises a
ConfigError. -/
theorem rip_interface_conflicts_raise (rip : Dict) (ifs : List (String × Value))
    (n : String) (o : List (String × Value))
    (hif : alookup rip "interface" = some (Value.dict ifs))
    (hmem : (n, Value.dict o) ∈ ifs)
    (hbad : (∃ a, alookup o "authentication" = some a ∧
              "md5" ∈ keysOfVal a ∧ "plaintext_password" ∈ keysOfVal a) ∨
            (∃ sh, alookup o "split_horizon" = some sh ∧
              "disable" ∈ keysOfVal sh ∧ "poison_reverse" ∈ keysOfVal sh)) :
    ∃ e, Rip.verify rip = Except.error e := by
  have hemp : rip.isEmpty = false := by
    cases rip with
    | nil => simp [alookup] at hif
    | cons hd tl => rfl
  refine ripVerify_error_of_iface rip hemp ?_
  obtain ⟨e, he⟩ := ifaceLoop_error_of_mem ifs n o hmem (checkIface_error_of_conflict n o hbad)
  exact ⟨e, by simp [Rip.interfaceCheck, hif, he]⟩

/-- C3 (witness): on ripConflictIface, whose interface eth0 carries both md5
and plaintext_password, verify raises an error. -/
theorem rip_interface_conflicts_raise_witness :
    ∃ e, Rip.verify ripConflictIface = Except.error e :=
  rip_interface_conflicts_raise ripConflictIface
    [("eth0", Value.dict [("authentication", Value.dict
      [("md5", Value.dict []), ("plaintext_password", Value.str "x")])])]
    "eth0"
    [("authentication", Value.dict [("md5", Value.dict []), ("plaintext_password", Value.str "x")])]
    rfl (by simp)
    (Or.inl ⟨Value.dict [("md5", Value.dict []), ("plaintext_password", Value.str "x")],
      rfl, by simp [keysOfVal, akeys], by simp [keysOfVal, akeys]⟩)

/-- C9: the prefix-list existence checks of RIP verify test the
hyphen-to-underscore mangled form of the referenced name against the keys of
policy.prefix_list, while the access-list checks compare the referenced name
verbatim against the keys of policy.access_list: each check passes exactly
when the respective name is such a key. -/
theorem rip_mangled_prefix_list_lookup (rip : Dict)
    (hpfx : ∀ v, dict_search ["policy", "prefix_list"] rip = some v → ∃ d, v = Value.dict d)
    (hacc : ∀ v, dict_search ["policy", "access_list"] rip = some v → ∃ d, v = Value.dict d) :
    (∀ p, dict_search ["distribute_list", "prefix_list", "in"] rip = some (Value.str p) →
      p ≠ "" → (Rip.prefixInCheck rip = Except.ok () ↔
        isKeyOf (dashToUnderscore p) (dict_search ["policy", "prefix_list"] rip) = true)) ∧
    (∀ p, dict_search ["distribute_list", "prefix_list", "out"] rip = some (Value.str p) →
      p ≠ "" → (Rip.prefixOutCheck rip = Except.ok () ↔
        isKeyOf (dashToUnderscore p) (dict_search ["policy", "prefix_list"] rip) = true)) ∧
    (∀ a, dict_search ["distribute_list", "access_list", "in"] rip = some (Value.str a) →
      a ≠ "" → (Rip.aclInCheck rip = Except.ok () ↔
        isKeyOf a (dict_search ["policy", "access_list"] rip) = true)) ∧
    (∀ a, dict_search ["distribute_list", "access_list", "out"] rip = some (Value.str a) →
      a ≠ "" → (Rip.aclOutCheck rip = Except.ok () ↔
        isKeyOf a (dict_search ["policy", "access_list"] rip) = true)) :=
  ⟨fun p hin hne => prefixInCheck_ok_iff rip p hin hne hpfx,
   fun p hin hne => prefixOutCheck_ok_iff rip p hin hne hpfx,
   fun a hin hne => aclInCheck_ok_iff rip a hin hne hacc,
   fun a hin hne => aclOutCheck_ok_iff rip a hin hne hacc⟩

/-- C9 (witness): on ripPfxMangledOk the inbound reference "a-b" passes the
check because its mangled form "a_b" is a key of policy.prefix_list, even
though the literal name is not; on ripMangledPolicy shaped data the same
lemma instantiates the rejected direction. -/
theorem rip_mangled_prefix_list_lookup_witness :
    Rip.prefixInCheck ripPfxMangledOk = Except.ok () ↔
      isKeyOf (dashToUnderscore "a-b")
        (dict_search ["policy", "prefix_list"] ripPfxMangledOk) = true := by
  have h := (rip_mangled_prefix_list_lookup ripPfxMangledOk
    (fun v hv => ⟨[("a_b", Value.dict [])], (Option.some.inj hv).symm⟩)
    (fun v hv => Option.noConfusion hv)).1 "a-b" rfl (by decide)
  exact h

/-- C4: when the configuration subtree is absent, RIP get_config returns the
empty mapping and RADIUS get_config returns the default mapping with an
empty server list and empty source_address; and RIP generate on the empty
mapping stores the empty string under new_frr_config. -/
theorem absent_subtree_yields_defaults :
    (∀ t : CTree, cexists ["protocols", "rip"] t = false → Rip.get_config t = []) ∧
    (∀ t : CTree, cexists ["system", "login", "radius"] t = false →
      Radius.get_config t = { server := [], source_address := "" }) ∧
    alookup (Rip.generate []) "new_frr_config" = some (Value.str "") := by
  refine ⟨?_, ?_, rfl⟩
  · intro t h
    have hn : cfind t ["protocols", "rip"] = none := by
      cases hc : cfind t ["protocols", "rip"] with
      | none => rfl
      | some c => simp [cexists, hc] at h
    simp [Rip.get_config, h, getConfigDict, hn]
  · intro t h
    simp [Radius.get_config, h]

/-- C4 (witness): on the empty configuration tree both subtrees are absent
and both extractions return their defaults. -/
theorem absent_subtree_yields_defaults_witness :
    Rip.get_config (CTree.mk [] none) = [] ∧
    Radius.get_config (CTree.mk [] none) = { server := [], source_address := "" } :=
  ⟨absent_subtree_yields_defaults.1 _ rfl, absent_subtree_yields_defaults.2.1 _ rfl⟩

/-- C5: RIP apply calls commit_configuration exactly once when the stored
new_frr_config text is non-empty and exactly six times (the initial commit
plus the unconditional five repeats) when it is the empty string. -/
theorem rip_apply_commit_counts (rip : Dict) (s : String)
    (h : alookup rip "new_frr_config" = some (Value.str s)) :
    ∃ ops, Rip.apply rip = some ops ∧
      Rip.commitCount ops = (if s = "" then 6 else 1) := by
  by_cases hs : s = ""
  · subst hs
    refine ⟨[Rip.FrrOp.load "ripd",
             Rip.FrrOp.modifySection "key chain \\S+" "",
             Rip.FrrOp.modifySection "interface \\S+" "",
             Rip.FrrOp.modifySection "router rip" "",
             Rip.FrrOp.addBefore "(ip prefix-list .*|route-map .*|line vty)" "",
             Rip.FrrOp.commit "ripd", Rip.FrrOp.commit "ripd", Rip.FrrOp.commit "ripd",
             Rip.FrrOp.commit "ripd", Rip.FrrOp.commit "ripd", Rip.FrrOp.commit "ripd"],
           by simp [Rip.apply, h], ?_⟩
    simp [Rip.commitCount, Rip.isCommitOp]
  · refine ⟨[Rip.FrrOp.load "ripd",
             Rip.FrrOp.modifySection "key chain \\S+" "",
             Rip.FrrOp.modifySection "interface \\S+" "",
             Rip.FrrOp.modifySection "router rip" "",
             Rip.FrrOp.addBefore "(ip prefix-list .*|route-map .*|line vty)" s,
             Rip.FrrOp.commit "ripd"],
           by simp [Rip.apply, h, hs], ?_⟩
    simp [Rip.commitCount, Rip.isCommitOp, hs]

/-- C5 (witness): with the empty rendered text the trace holds six commits,
with a non-empty text a single one. -/
theorem rip_apply_commit_counts_witness :
    (∃ ops, Rip.apply [("new_frr_config", Value.str "")] = some ops ∧
      Rip.commitCount ops = 6) ∧
    (∃ ops, Rip.apply [("new_frr_config", Value.str "router rip")] = some ops ∧
      Rip.commitCount ops = 1) := by
  constructor
  · simpa using rip_apply_commit_counts [("new_frr_config", Value.str "")] "" rfl
  · simpa using rip_apply_commit_counts
      [("new_frr_config", Value.str "router rip")] "router rip" rfl

/-- C6: for both scripts, when the pipeline after get_config raises a
ConfigError the process prints exactly that message to standard output and
exits with status 1; when it succeeds the process prints nothing and exits
with status 0. -/
theorem main_exit_contract (t : CTree) :
    (∀ e, Rip.pipeline (Rip.get_config t) = Except.error e → Rip.main t = (e, 1)) ∧
    (∀ r, Rip.pipeline (Rip.get_config t) = Except.ok r → Rip.main t = ("", 0)) ∧
    (∀ e, Radius.pipeline (Radius.get_config t) = Except.error e → Radius.main t = (e, 1)) ∧
    (∀ r, Radius.pipeline (Radius.get_config t) = Except.ok r → Radius.main t = ("", 0)) := by
  refine ⟨?_, ?_, ?_, ?_⟩ <;> intro x h <;> simp [Rip.main, Radius.main, h]

/-- C6 (witness): on the empty configuration tree both pipelines succeed and
both processes exit 0 with no output. -/
theorem main_exit_contract_witness :
    Rip.main (CTree.mk [] none) = ("", 0) ∧ Radius.main (CTree.mk [] none) = ("", 0) :=
  ⟨(main_exit_contract _).2.1 _ rfl, (main_exit_contract _).2.2.2 _ rfl⟩

/-- C8: RIP generate only adds the rendered-text entry — after generate the
dictionary holds a string under new_frr_config and every other key maps to
exactly what it mapped to before; verify and apply are embedded as
functions that never write the mapping, mirroring a source that never
assigns into it. -/
theorem rip_generate_frame (rip : Dict) (k : String) (hk : k ≠ "new_frr_config") :
    (∃ s, alookup (Rip.generate rip) "new_frr_config" = some (Value.str s)) ∧
    alookup (Rip.generate rip) k = alookup rip k := by
  constructor
  · by_cases h : rip.isEmpty
    · exact ⟨"", by simp [Rip.generate, h, alookup_aset_self]⟩
    · exact ⟨Rip.render_to_string "frr/rip.frr.tmpl" rip,
        by simp [Rip.generate, h, alookup_aset_self]⟩
  · by_cases h : rip.isEmpty <;>
      simp [Rip.generate, h, alookup_aset_ne _ _ _ _ hk]

/-- C8 (witness): generate on a one-key mapping stores a rendered string and
leaves the interface key untouched. -/
theorem rip_generate_frame_witness :
    (∃ s, alookup (Rip.generate [("interface", Value.dict [])]) "new_frr_config" =
      some (Value.str s)) ∧
    alookup (Rip.generate [("interface", Value.dict [])]) "interface" =
      alookup [("interface", Value.dict [])] "interface" :=
  rip_generate_frame [("interface", Value.dict [])] "interface" (by decide)

/-- C2: for every non-empty server list whose entries carry a boolean
disabled field, RADIUS verify raises exactly when every entry is disabled;
and a mapping with one disabled and one enabled entry passes verify and
renders a server line only for the enabled entry. -/
theorem radius_verify_all_disabled_and_render :
    (∀ (servers : List REntry) (src : String), servers ≠ [] →
      (∀ x ∈ servers, ∃ b, alookup x "disabled" = some (RVal.b b)) →
      ((∃ m, Radius.verify ⟨servers, src⟩ = Except.error m) ↔
        ∀ x ∈ servers, alookup x "disabled" = some (RVal.b true))) ∧
    (∀ (d e : REntry) (src : String),
      alookup d "disabled" = some (RVal.b true) →
      alookup e "disabled" = some (RVal.b false) →
      Radius.verify ⟨[d, e], src⟩ = Except.ok () ∧
      Radius.renderTemplate ⟨[d, e], src⟩ =
        Radius.radiusHeader ++
          (Radius.serverTableHeader ++ Radius.serverLine e src ++ Radius.radiusTrailer) ++
          "\n\n") := by
  constructor
  · intro servers src hne hb
    have hlen : 0 < servers.length := List.length_pos.mpr hne
    constructor
    · rintro ⟨m, hm⟩ x hx
      by_cases hall : servers.all (fun s => truthyR (alookup s "disabled")) = true
      · have hx2 := List.all_eq_true.mp hall x hx
        obtain ⟨b, hbx⟩ := hb x hx
        cases b
        · rw [hbx] at hx2; simp [truthyR] at hx2
        · exact hbx
      · have hok : Radius.verify ⟨servers, src⟩ = Except.ok () := by
          simp [Radius.verify, hlen, hall]
        rw [hok] at hm
        cases hm
    · intro hall
      refine ⟨"At least one RADIUS server must be active.", ?_⟩
      have ht : servers.all (fun s => truthyR (alookup s "disabled")) = true := by
        refine List.all_eq_true.mpr ?_
        intro x hx
        rw [hall x hx]
        rfl
      simp [Radius.verify, hlen, ht]
  · intro d e src hd he
    constructor
    · have hall : ([d, e].all (fun s => truthyR (alookup s "disabled"))) = false := by
        simp [hd, he, truthyR]
      simp [Radius.verify, hall]
    · simp [Radius.renderTemplate, Radius.serversBlock, hd, he, truthyR]

/-- C2 (witness): one disabled and one enabled concrete entry pass verify and
render only the enabled line. -/
theorem radius_verify_all_disabled_and_render_witness :
    Radius.verify ⟨[radiusDisabledEntry, radiusEnabledEntry], ""⟩ = Except.ok () ∧
    Radius.renderTemplate ⟨[radiusDisabledEntry, radiusEnabledEntry], ""⟩ =
      Radius.radiusHeader ++
        (Radius.serverTableHeader ++ Radius.serverLine radiusEnabledEntry "" ++
          Radius.radiusTrailer) ++ "\n\n" :=
  radius_verify_all_disabled_and_render.2 radiusDisabledEntry radiusEnabledEntry "" rfl rfl

/-- C7: RADIUS generate writes the rendered text to the fixed path
/etc/pam_radius_auth.conf, sets root:root ownership and permission bits 0600
when the server list is non-empty, and deletes that file when the server
list is empty. -/
theorem radius_generate_filesystem_effects (r : RadiusConfig) :
    (r.server ≠ [] →
      Radius.generate r =
        [Radius.FsEvent.write Radius.radius_config_file (Radius.renderTemplate r),
         Radius.FsEvent.chown Radius.radius_config_file "root" "root",
         Radius.FsEvent.chmod Radius.radius_config_file 0o600]) ∧
    (r.server = [] → Radius.generate r = [Radius.FsEvent.unlink Radius.radius_config_file]) := by
  constructor
  · intro h
    have hlen : 0 < r.server.length := List.length_pos.mpr h
    simp [Radius.generate, hlen]
  · intro h
    simp [Radius.generate, h]

/-- C7 (witness): both branches at concrete configurations. -/
theorem radius_generate_filesystem_effects_witness :
    Radius.generate ⟨[radiusEnabledEntry], ""⟩ =
      [Radius.FsEvent.write Radius.radius_config_file
        (Radius.renderTemplate ⟨[radiusEnabledEntry], ""⟩),
       Radius.FsEvent.chown Radius.radius_config_file "root" "root",
       Radius.FsEvent.chmod Radius.radius_config_file 0o600] ∧
    Radius.generate ⟨[], ""⟩ = [Radius.FsEvent.unlink Radius.radius_config_file] :=
  ⟨(radius_generate_filesystem_effects _).1 (by simp),
   (radius_generate_filesystem_effects _).2 rfl⟩

/-- C10: every server entry built by RADIUS get_config has exactly the five
keys address, disabled, key, port and timeout in that order; address holds
the configured node name, disabled is a boolean defaulting to false when the
disable node is absent, and key, port and timeout are strings defaulting to
the empty string, 1812 and 2 when their nodes are absent; and every entry of
the extracted server list arises this way from a configured server node. -/
theorem radius_server_entry_shape :
    (∀ (t : CTree) (name : String),
      akeys (Radius.serverCfg t name) = ["address", "disabled", "key", "port", "timeout"] ∧
      alookup (Radius.serverCfg t name) "address" = some (RVal.s name) ∧
      (∃ b, alookup (Radius.serverCfg t name) "disabled" = some (RVal.b b)) ∧
      (∃ sk, alookup (Radius.serverCfg t name) "key" = some (RVal.s sk)) ∧
      (∃ sp, alookup (Radius.serverCfg t name) "port" = some (RVal.s sp)) ∧
      (∃ st, alookup (Radius.serverCfg t name) "timeout" = some (RVal.s st)) ∧
      (cexists (Radius.serverPath name "disable") t = false →
        alookup (Radius.serverCfg t name) "disabled" = some (RVal.b false)) ∧
      (cexists (Radius.serverPath name "key") t = false →
        alookup (Radius.serverCfg t name) "key" = some (RVal.s "")) ∧
      (cexists (Radius.serverPath name "port") t = false →
        alookup (Radius.serverCfg t name) "port" = some (RVal.s "1812")) ∧
      (cexists (Radius.serverPath name "timeout") t = false →
        alookup (Radius.serverCfg t name) "timeout" = some (RVal.s "2"))) ∧
    (∀ (t : CTree) (e : REntry), e ∈ (Radius.get_config t).server →
      ∃ name, name ∈ clistNodes ["system", "login", "radius", "server"] t ∧
        e = Radius.serverCfg t name) := by
  constructor
  · intro t name
    unfold Radius.serverCfg
    split_ifs <;> simp_all [aset, alookup, akeys]
  · intro t e he
    by_cases hc : cexists ["system", "login", "radius"] t = true
    · simp [Radius.get_config, hc] at he
      obtain ⟨name, hn, heq⟩ := he
      exact ⟨name, hn, heq.symm⟩
    · have hc2 : cexists ["system", "login", "radius"] t = false := by
        simpa using hc
      simp [Radius.get_config, hc2] at he

/-- C10 (witness): the single configured server of radiusTree yields the
five-key entry with its defaults for the absent nodes. -/
theorem radius_server_entry_shape_witness :
    akeys (Radius.serverCfg radiusTree "10.0.0.1") =
      ["address", "disabled", "key", "port", "timeout"] ∧
    alookup (Radius.serverCfg radiusTree "10.0.0.1") "disabled" = some (RVal.b false) ∧
    alookup (Radius.serverCfg radiusTree "10.0.0.1") "port" = some (RVal.s "1812") :=
  ⟨(radius_server_entry_shape.1 radiusTree "10.0.0.1").1,
   (radius_server_entry_shape.1 radiusTree "10.0.0.1").2.2.2.2.2.2.1 rfl,
   (radius_server_entry_shape.1 radiusTree "10.0.0.1").2.2.2.2.2.2.2.2.1 rfl⟩
